import Mathlib

/-!
Shallow embedding of the ChubaoFS console S3 handler set
(`console/handler_s3.go`).

Each Go handler is modelled as a pure Lean function from an environment
(the oracle results of the auth-service call and of each object-store SDK
call) and an HTTP request model to a pair of (a) the list of object-store
calls the handler issued, in order, and (b) the handler outcome: a runtime
panic, or the response written.

Go-specific semantics embedded faithfully:
  - indexing a nil slice (missing map key in `url.Values` or
    `MultipartForm.Value`) panics;
  - an unchecked interface type assertion `v.(string)` panics when the
    value is absent (nil interface) or not a string;
  - `json.Unmarshal` into a `map[string]interface{}` whose error is
    discarded leaves the map nil on malformed input, and reads from a nil
    map yield the zero value;
  - `strconv.ParseInt` returns 0 together with an error on a syntax
    error, and the clamped boundary value on a range error;
  - `net/http`: changes to the header map after `WriteHeader` has been
    called have no effect on the response that is sent.
-/

namespace Console

/-- A decoded JSON value as Go sees it inside `map[string]interface{}`:
either a string, or anything else (number, bool, null, array, object) —
the handlers only ever assert `.(string)`, which panics on the latter. -/
inductive JVal where
  | jstr : String → JVal
  | jother : JVal
deriving DecidableEq, Repr

/-- A decoded JSON object body (`map[string]interface{}`). -/
abbrev JObj := List (String × JVal)

/-- Outcome of a Go computation that may panic. -/
inductive PanicOr (α : Type) where
  | panicked : PanicOr α
  | ok : α → PanicOr α
deriving DecidableEq, Repr

/-- First-match association lookup (Go map read). -/
def alook {α : Type} : List (String × α) → String → Option α
  | [], _ => none
  | (k2, v) :: t, k => if k2 = k then some v else alook t k

/-- Go's unchecked interface type assertion `v.(string)`: panics when the
key was absent (nil interface) or the value is not a string. -/
def assertString : Option JVal → PanicOr String
  | some (.jstr s) => .ok s
  | _ => .panicked

/-- Go's `strconv.ParseInt(s, 10, 64)`: returns (value, ok). On a syntax
error the returned value is 0; on a range error it is the clamped int64
boundary; `ok` is false in both cases. -/
def goParseInt64 (s : String) : Int × Bool :=
  match s.toList with
  | [] => (0, false)
  | c :: rest =>
    let signed : Bool × List Char :=
      if c = '-' then (true, rest)
      else if c = '+' then (false, rest)
      else (false, c :: rest)
    match signed with
    | (neg, ds) =>
      if ds = [] then (0, false)
      else if ds.all Char.isDigit then
        let n : Nat := ds.foldl (fun acc d => acc * 10 + (d.toNat - 48)) 0
        if neg then
          if n ≤ 2 ^ 63 then (-(n : Int), true) else (-(2 ^ 63 : Int), false)
        else
          if n ≤ 2 ^ 63 - 1 then ((n : Int), true) else ((2 ^ 63 - 1 : Int), false)
      else (0, false)

/-- Modelled from the spec: the fixed default max-keys constant
`S3ListObjectsMaxKeys`, defined elsewhere in the repository (not under
src/); the spec only says it is "a fixed constant" used as the default
page size, so it is modelled as the string "1000". -/
def S3ListObjectsMaxKeys : String := "1000"

/-- The model of an incoming HTTP request, as far as the handlers read it:
the URL query parameters, the request Content-Type header, the outcome of
reading and JSON-decoding the body (`.error ()` = `ioutil.ReadAll` failed;
`.ok none` = body read but is malformed JSON, so the discarded
`json.Unmarshal` error leaves the map nil; `.ok (some o)` = decoded
object), the parsed multipart form values (none = body is not multipart,
so `r.MultipartForm` stays nil), and the outcome of `r.FormFile("file")`. -/
structure HttpReq where
  query : List (String × List String)
  contentType : String
  bodyRead : Except Unit (Option JObj)
  multipart : Option (List (String × List String))
  formFile : Except Unit Unit

/-- Modelled from the spec: the `Bucket` projection type of the console
package (defined outside src/): {name, creationTime}. -/
structure Bucket where
  name : String
  createTime : Nat
deriving DecidableEq, Repr

/-- Modelled from the spec: the `Object` projection type of the console
package (defined outside src/): one listing entry. -/
structure Object where
  size : Int
  ownerId : String
  ownerName : String
  objectName : String
  storageClass : String
  lastModified : Nat
deriving DecidableEq, Repr

/-- Modelled from the spec: the `ObjectList` page type of the console
package (defined outside src/). -/
structure ObjectList where
  keyCount : Int
  startAfter : String
  isTruncated : Bool
  objects : List Object
  directories : List String
deriving DecidableEq, Repr

/-- One entry of the store's ListObjectsV2 output (`Contents`). -/
structure OutObject where
  size : Int
  ownerId : String
  ownerName : String
  key : String
  storageClass : String
  lastModified : Nat
deriving DecidableEq, Repr

/-- The store's ListObjectsV2 output. -/
structure OutListing where
  keyCount : Int
  startAfter : String
  isTruncated : Bool
  contents : List OutObject
  commonPrefixes : List String
deriving DecidableEq, Repr

/-- The `ListObjectsV2Input` the handler builds: `SetPrefix`/`SetStartAfter`
are only called on non-empty strings (hence Option), `SetMaxKeys` is
always called. -/
structure ListInput where
  bucket : String
  pfx : Option String
  startAfter : Option String
  maxKeys : Int
deriving DecidableEq, Repr

/-- One call issued against the object store (S3 SDK). The constructor
arguments are exactly the fields the Go code puts into the SDK input
struct — in particular `putBucketAcl`/`putObjectAcl` carry no ACL
content, because the Go code builds `PutBucketAclInput`/`PutObjectAclInput`
from the bucket (and key) alone. -/
inductive StoreCall where
  | listBuckets : StoreCall
  | createBucket : String → StoreCall
  | deleteBucket : String → StoreCall
  | waitNotExists : String → StoreCall
  | putObject : String → String → StoreCall
  | headObject : String → String → StoreCall
  | getObject : String → String → StoreCall
  | deleteObject : String → String → StoreCall
  | listObjectsV2 : ListInput → StoreCall
  | getBucketAcl : String → StoreCall
  | putBucketAcl : String → StoreCall
  | getObjectAcl : String → String → StoreCall
  | putObjectAcl : String → String → StoreCall
deriving DecidableEq, Repr

/-- Data payloads carried by `writeDataResponse`. ACL outputs are returned
verbatim, modelled as an opaque token. -/
inductive Data where
  | buckets : List Bucket → Data
  | objectList : ObjectList → Data
  | acl : Nat → Data
deriving DecidableEq, Repr

/-- What the handler wrote to the ResponseWriter. `silent` means the
handler returned without writing anything. `stream` is a raw byte
response: status code, the headers that were actually sent (frozen at
`WriteHeader` time), and the body bytes. The envelope constructors are
modelled from the spec: the response-writer helpers
(`writeErrorResponse`, `writeSuccessResponse`, `writeDataResponse`) are
defined outside src/ and, per the spec, wrap a message / nothing / a
payload in a uniform JSON envelope. -/
inductive Response where
  | errorEnv : String → Response
  | successEnv : Response
  | dataEnv : Data → Response
  | silent : Response
  | stream : Nat → List (String × String) → List Nat → Response
deriving DecidableEq, Repr

/-- Handler outcome: a Go runtime panic, or a written response. -/
inductive HResult where
  | panicked : HResult
  | resp : Response → HResult
deriving DecidableEq, Repr

/-- The environment: the result every external call would return on this
request. `adminGetCaps` is the auth-service lookup (user id → key pair);
the rest are the object-store SDK calls. `newSession` is the session
construction in `getS3Client`; `newSessionFixed` the one in
`prepareHandler` (hardcoded credentials). -/
structure Env where
  adminGetCaps : String → Except Unit (String × String)
  newSession : Except Unit Unit
  newSessionFixed : Except Unit Unit
  listBuckets : Except Unit (List (String × Nat))
  createBucket : String → Except Unit Unit
  deleteBucket : String → Except Unit Unit
  waitNotExists : String → Except Unit Unit
  putObject : String → String → Except Unit Unit
  headObject : String → String → Except Unit Int
  getObject : String → String → Except Unit (List Nat)
  deleteObject : String → String → Except Unit Unit
  listObjectsV2 : ListInput → Except Unit OutListing
  getBucketAcl : String → Except Unit Nat
  putBucketAcl : String → Except Unit Unit
  getObjectAcl : String → String → Except Unit Nat
  putObjectAcl : String → String → Except Unit Unit

/-- `getS3Keys`: reads `params["userId"]` (a nil slice when absent — so
`userId[0]` panics), errors when the first value is the empty string,
otherwise calls the auth service. -/
def getS3Keys (env : Env) (r : HttpReq) : PanicOr (Except Unit (String × String)) :=
  match (alook r.query "userId").getD [] with
  | [] => .panicked
  | u :: _ => if u = "" then .ok (.error ()) else .ok (env.adminGetCaps u)

/-- `getS3Client`: resolves keys, then builds a session from them.
Returns an error (and no client) when either step fails. -/
def getS3Client (env : Env) (r : HttpReq) : PanicOr (Except Unit Unit) :=
  match getS3Keys env r with
  | .panicked => .panicked
  | .ok (.error e) => .ok (.error e)
  | .ok (.ok _) =>
    match env.newSession with
    | .error e => .ok (.error e)
    | .ok _ => .ok (.ok ())

/-- `getBucketListHandler`: client, ListBuckets, project each bucket. -/
def getBucketListHandler (env : Env) (r : HttpReq) : List StoreCall × HResult :=
  match getS3Client env r with
  | .panicked => ([], .panicked)
  | .ok (.error _) => ([], .resp (.errorEnv "Get s3 client failed"))
  | .ok (.ok _) =>
    match env.listBuckets with
    | .error _ => ([.listBuckets], .resp (.errorEnv "List buckets failed"))
    | .ok bs =>
      ([.listBuckets],
       .resp (.dataEnv (.buckets (bs.map fun b => { name := b.1, createTime := b.2 }))))

/-- `createBucketHandler`: read body (Unmarshal error discarded, only the
ReadAll error is checked), assert `bucketName`, client, CreateBucket. -/
def createBucketHandler (env : Env) (r : HttpReq) : List StoreCall × HResult :=
  match r.bodyRead with
  | .error _ => ([], .resp (.errorEnv "Create bucket failed"))
  | .ok m =>
    match assertString (alook (m.getD []) "bucketName") with
    | .panicked => ([], .panicked)
    | .ok bucketName =>
      match getS3Client env r with
      | .panicked => ([], .panicked)
      | .ok (.error _) => ([], .resp (.errorEnv "Get s3 client failed"))
      | .ok (.ok _) =>
        match env.createBucket bucketName with
        | .error _ => ([.createBucket bucketName], .resp (.errorEnv "Create bucket failed"))
        | .ok _ => ([.createBucket bucketName], .resp .successEnv)

/-- `deleteBucketHandler`: delete, then `WaitUntilBucketNotExists` whose
error is assigned to `err` but never checked before the success write. -/
def deleteBucketHandler (env : Env) (r : HttpReq) : List StoreCall × HResult :=
  match r.bodyRead with
  | .error _ => ([], .resp (.errorEnv "Get bucket name failed"))
  | .ok m =>
    match assertString (alook (m.getD []) "bucketName") with
    | .panicked => ([], .panicked)
    | .ok bucketName =>
      match getS3Client env r with
      | .panicked => ([], .panicked)
      | .ok (.error _) => ([], .resp (.errorEnv "Get s3 client failed"))
      | .ok (.ok _) =>
        match env.deleteBucket bucketName with
        | .error _ => ([.deleteBucket bucketName], .resp (.errorEnv "Delete bucket failed"))
        | .ok _ =>
          match env.waitNotExists bucketName with
          | _ =>
            ([.deleteBucket bucketName, .waitNotExists bucketName], .resp .successEnv)

/-- `putObjectHandler`: `ParseMultipartForm`'s error is ignored, so on a
non-multipart body `r.MultipartForm` is nil and dereferencing it panics;
missing form keys are nil slices, so indexing `[0]` panics. -/
def putObjectHandler (env : Env) (r : HttpReq) : List StoreCall × HResult :=
  match r.multipart with
  | none => ([], .panicked)
  | some vals =>
    match (alook vals "bucketName").getD [] with
    | [] => ([], .panicked)
    | bucketName :: _ =>
      match (alook vals "objectName").getD [] with
      | [] => ([], .panicked)
      | objectName :: _ =>
        match r.formFile with
        | .error _ => ([], .resp (.errorEnv "Put object failed"))
        | .ok _ =>
          match getS3Client env r with
          | .panicked => ([], .panicked)
          | .ok (.error _) => ([], .resp (.errorEnv "Get s3 client failed"))
          | .ok (.ok _) =>
            match env.putObject bucketName objectName with
            | .error _ => ([.putObject bucketName objectName], .resp (.errorEnv "Put object failed"))
            | .ok _ => ([.putObject bucketName objectName], .resp .successEnv)

/-- The Go `net/http` ResponseWriter: headers set before `WriteHeader`
are part of the sent response; once `WriteHeader` has run, further
`Header().Set` calls mutate a map that is no longer consulted. -/
structure RW where
  headers : List (String × String)
  wroteHeader : Bool
  sentStatus : Nat
  sentHeaders : List (String × String)
  body : List Nat
deriving DecidableEq, Repr

def RW.init : RW := ⟨[], false, 0, [], []⟩

def setAssoc : List (String × String) → String → String → List (String × String)
  | [], k, v => [(k, v)]
  | (k2, v2) :: t, k, v => if k2 = k then (k, v) :: t else (k2, v2) :: setAssoc t k v

def RW.setHeader (w : RW) (k v : String) : RW :=
  if w.wroteHeader then w else { w with headers := setAssoc w.headers k v }

def RW.writeHeader (w : RW) (code : Nat) : RW :=
  if w.wroteHeader then w
  else { w with wroteHeader := true, sentStatus := code, sentHeaders := w.headers }

def RW.write (w : RW) (bs : List Nat) : RW :=
  let w2 := if w.wroteHeader then w else w.writeHeader 200
  { w2 with body := w2.body ++ bs }

/-- The success tail of `getObjectHandler`, exactly in source order:
`WriteHeader(200)` first, then the three `Header().Set` calls, then the
`io.Copy` of the object body. -/
def sendObject (contentType objectName : String) (size : Int) (data : List Nat) : Response :=
  let w0 := RW.writeHeader RW.init 200
  let w1 := RW.setHeader w0 "Content-Type" contentType
  let w2 := RW.setHeader w1 "Content-Disposition" ("attachment; filename=" ++ objectName)
  let w3 := RW.setHeader w2 "Content-Length" (toString size)
  let w4 := RW.write w3 data
  .stream w4.sentStatus w4.sentHeaders w4.body

/-- `getObjectHandler`: body decode, `HeadObject` probe (on probe error
the handler just returns — no response at all), then `GetObject`, whose
output is dereferenced (`.Body`) before its error is checked, so a
`GetObject` error is a nil-pointer panic. -/
def getObjectHandler (env : Env) (r : HttpReq) : List StoreCall × HResult :=
  match r.bodyRead with
  | .error _ => ([], .resp (.errorEnv "Get object parameters failed"))
  | .ok m =>
    match assertString (alook (m.getD []) "bucketName") with
    | .panicked => ([], .panicked)
    | .ok bucketName =>
      match assertString (alook (m.getD []) "objectName") with
      | .panicked => ([], .panicked)
      | .ok objectName =>
        match getS3Client env r with
        | .panicked => ([], .panicked)
        | .ok (.error _) => ([], .resp (.errorEnv "Get s3 client failed"))
        | .ok (.ok _) =>
          match env.headObject bucketName objectName with
          | .error _ => ([.headObject bucketName objectName], .resp .silent)
          | .ok size =>
            match env.getObject bucketName objectName with
            | .error _ =>
              ([.headObject bucketName objectName, .getObject bucketName objectName], .panicked)
            | .ok data =>
              ([.headObject bucketName objectName, .getObject bucketName objectName],
               .resp (sendObject r.contentType objectName size data))

/-- `deleteObjectHandler`. -/
def deleteObjectHandler (env : Env) (r : HttpReq) : List StoreCall × HResult :=
  match r.bodyRead with
  | .error _ => ([], .resp (.errorEnv "Get object parameters from request failed"))
  | .ok m =>
    match assertString (alook (m.getD []) "bucketName") with
    | .panicked => ([], .panicked)
    | .ok bucketName =>
      match assertString (alook (m.getD []) "objectName") with
      | .panicked => ([], .panicked)
      | .ok objectName =>
        match getS3Client env r with
        | .panicked => ([], .panicked)
        | .ok (.error _) => ([], .resp (.errorEnv "Get s3 client failed"))
        | .ok (.ok _) =>
          match env.deleteObject bucketName objectName with
          | .error _ =>
            ([.deleteObject bucketName objectName], .resp (.errorEnv "Delete object failed"))
          | .ok _ => ([.deleteObject bucketName objectName], .resp .successEnv)

/-- Projection of the store's listing output into the console shape. -/
def projectListing (out : OutListing) : ObjectList :=
  { keyCount := out.keyCount
    startAfter := out.startAfter
    isTruncated := out.isTruncated
    objects := out.contents.map fun o =>
      { size := o.size, ownerId := o.ownerId, ownerName := o.ownerName,
        objectName := o.key, storageClass := o.storageClass, lastModified := o.lastModified }
    directories := out.commonPrefixes }

/-- Builds the `ListObjectsV2Input`: the default max-keys is parsed from
the constant first, but a non-empty `maxKeys` field REASSIGNS the
variable to `ParseInt`'s return value, which is 0 on a parse failure
(the failure is only logged). -/
def buildListInput (bucketName pfx startAfter maxKeys : String) : ListInput :=
  let base : ListInput := { bucket := bucketName, pfx := none, startAfter := none, maxKeys := 0 }
  let withPfx := if pfx.length > 0 then { base with pfx := some pfx } else base
  let withStart :=
    if startAfter.length > 0 then { withPfx with startAfter := some startAfter } else withPfx
  let dflt := (goParseInt64 S3ListObjectsMaxKeys).1
  let mk := if maxKeys.length > 0 then (goParseInt64 maxKeys).1 else dflt
  { withStart with maxKeys := mk }

/-- `getObjectListHandler`: asserts `prefix`, `maxKeys`, `startAfter`,
`bucketName` in source order (each panics when absent or non-string),
then one ListObjectsV2 call. Its store-error message is the source's
literal (copy-pasted) "Delete object failed". -/
def getObjectListHandler (env : Env) (r : HttpReq) : List StoreCall × HResult :=
  match r.bodyRead with
  | .error _ => ([], .resp (.errorEnv "Get bucket name from request failed"))
  | .ok m =>
    match assertString (alook (m.getD []) "prefix") with
    | .panicked => ([], .panicked)
    | .ok pfx =>
      match assertString (alook (m.getD []) "maxKeys") with
      | .panicked => ([], .panicked)
      | .ok maxKeys =>
        match assertString (alook (m.getD []) "startAfter") with
        | .panicked => ([], .panicked)
        | .ok startAfter =>
          match assertString (alook (m.getD []) "bucketName") with
          | .panicked => ([], .panicked)
          | .ok bucketName =>
            match getS3Client env r with
            | .panicked => ([], .panicked)
            | .ok (.error _) => ([], .resp (.errorEnv "Get s3 client failed"))
            | .ok (.ok _) =>
              let input := buildListInput bucketName pfx startAfter maxKeys
              match env.listObjectsV2 input with
              | .error _ => ([.listObjectsV2 input], .resp (.errorEnv "Delete object failed"))
              | .ok out =>
                ([.listObjectsV2 input], .resp (.dataEnv (.objectList (projectListing out))))

/-- `prepareHandler`: reads the body (ReadAll error → error), decodes it
(Unmarshal error discarded; nil map on malformed input), checks that
every required arg is a present key of the map, then builds a session
from the hardcoded credentials. Returns the decoded map on success.
The required-field check runs BEFORE the session construction. -/
def prepareHandler (env : Env) (r : HttpReq) (args : List String) : Except Unit JObj :=
  match r.bodyRead with
  | .error _ => .error ()
  | .ok m =>
    let req := m.getD []
    if args.all fun a => (alook req a).isSome then
      match env.newSessionFixed with
      | .error _ => .error ()
      | .ok _ => .ok req
    else .error ()

/-- `createFolderHandler`: required fields bucketName, folderName,
parentName; writes a zero-byte object at key parentName+folderName. -/
def createFolderHandler (env : Env) (r : HttpReq) : List StoreCall × HResult :=
  match prepareHandler env r ["bucketName", "folderName", "parentName"] with
  | .error _ => ([], .resp (.errorEnv "create folder failed!!!"))
  | .ok req =>
    match assertString (alook req "bucketName") with
    | .panicked => ([], .panicked)
    | .ok bucketName =>
      match assertString (alook req "folderName") with
      | .panicked => ([], .panicked)
      | .ok folderName =>
        match assertString (alook req "parentName") with
        | .panicked => ([], .panicked)
        | .ok parentName =>
          match env.putObject bucketName (parentName ++ folderName) with
          | .error _ =>
            ([.putObject bucketName (parentName ++ folderName)],
             .resp (.errorEnv "create folder failed!!!"))
          | .ok _ =>
            ([.putObject bucketName (parentName ++ folderName)], .resp .successEnv)

/-- `getBucketAclHandler`. -/
def getBucketAclHandler (env : Env) (r : HttpReq) : List StoreCall × HResult :=
  match prepareHandler env r ["bucketName"] with
  | .error _ => ([], .resp (.errorEnv "get bucket acl failed!!!"))
  | .ok req =>
    match assertString (alook req "bucketName") with
    | .panicked => ([], .panicked)
    | .ok bucketName =>
      match env.getBucketAcl bucketName with
      | .error _ => ([.getBucketAcl bucketName], .resp (.errorEnv "get bucket acl failed!!!"))
      | .ok a => ([.getBucketAcl bucketName], .resp (.dataEnv (.acl a)))

/-- `setBucketAclHandler`: the `PutBucketAclInput` holds the bucket name
only — no ACL content from the request body is put into it. -/
def setBucketAclHandler (env : Env) (r : HttpReq) : List StoreCall × HResult :=
  match prepareHandler env r ["bucketName"] with
  | .error _ => ([], .resp (.errorEnv "set bucket acl failed!!!"))
  | .ok req =>
    match assertString (alook req "bucketName") with
    | .panicked => ([], .panicked)
    | .ok bucketName =>
      match env.putBucketAcl bucketName with
      | .error _ => ([.putBucketAcl bucketName], .resp (.errorEnv "set bucket acl failed!!!"))
      | .ok _ => ([.putBucketAcl bucketName], .resp .successEnv)

/-- `getObjectAclHandler`. -/
def getObjectAclHandler (env : Env) (r : HttpReq) : List StoreCall × HResult :=
  match prepareHandler env r ["bucketName", "objectName"] with
  | .error _ => ([], .resp (.errorEnv "get object acl failed!!!"))
  | .ok req =>
    match assertString (alook req "bucketName") with
    | .panicked => ([], .panicked)
    | .ok bucketName =>
      match assertString (alook req "objectName") with
      | .panicked => ([], .panicked)
      | .ok objectName =>
        match env.getObjectAcl bucketName objectName with
        | .error _ =>
          ([.getObjectAcl bucketName objectName], .resp (.errorEnv "get object acl failed!!!"))
        | .ok a => ([.getObjectAcl bucketName objectName], .resp (.dataEnv (.acl a)))

/-- `setObjectAclHandler`: the `PutObjectAclInput` holds bucket and key
only — no ACL content from the request body is put into it. -/
def setObjectAclHandler (env : Env) (r : HttpReq) : List StoreCall × HResult :=
  match prepareHandler env r ["bucketName", "objectName"] with
  | .error _ => ([], .resp (.errorEnv "set object acl failed!!!"))
  | .ok req =>
    match assertString (alook req "bucketName") with
    | .panicked => ([], .panicked)
    | .ok bucketName =>
      match assertString (alook req "objectName") with
      | .panicked => ([], .panicked)
      | .ok objectName =>
        match env.putObjectAcl bucketName objectName with
        | .error _ =>
          ([.putObjectAcl bucketName objectName], .resp (.errorEnv "set object acl failed!!!"))
        | .ok _ => ([.putObjectAcl bucketName objectName], .resp .successEnv)

/-- A concrete environment where every external call succeeds. -/
def okEnv : Env :=
  { adminGetCaps := fun _ => .ok ("ak", "sk")
    newSession := .ok ()
    newSessionFixed := .ok ()
    listBuckets := .ok [("b1", 1)]
    createBucket := fun _ => .ok ()
    deleteBucket := fun _ => .ok ()
    waitNotExists := fun _ => .ok ()
    putObject := fun _ _ => .ok ()
    headObject := fun _ _ => .ok 3
    getObject := fun _ _ => .ok [97, 98, 99]
    deleteObject := fun _ _ => .ok ()
    listObjectsV2 := fun _ => .ok ⟨0, "", false, [], []⟩
    getBucketAcl := fun _ => .ok 7
    putBucketAcl := fun _ => .ok ()
    getObjectAcl := fun _ _ => .ok 7
    putObjectAcl := fun _ _ => .ok () }

/-- Environment where the auth-service lookup fails for every user. -/
def authFailEnv : Env := { okEnv with adminGetCaps := fun _ => .error () }

/-- Environment where the bucket-not-exists confirmation poll fails. -/
def pollFailEnv : Env := { okEnv with waitNotExists := fun _ => .error () }

/-- Environment where the HeadObject metadata probe fails. -/
def headFailEnv : Env := { okEnv with headObject := fun _ _ => .error () }

/-- A delete-bucket request: valid user, body `{"bucketName":"docs"}`. -/
def deleteReq : HttpReq :=
  { query := [("userId", ["u1"])], contentType := "",
    bodyRead := .ok (some [("bucketName", .jstr "docs")]),
    multipart := none, formFile := .ok () }

/-- A list-objects request whose maxKeys field does not parse. -/
def listReqBadMaxKeys : HttpReq :=
  { query := [("userId", ["u1"])], contentType := "",
    bodyRead := .ok (some [("bucketName", .jstr "docs"), ("prefix", .jstr ""),
                           ("maxKeys", .jstr "abc"), ("startAfter", .jstr "")]),
    multipart := none, formFile := .ok () }

/-- A list-objects request with only bucketName; the optional fields
prefix, startAfter, maxKeys are omitted from the body. -/
def listReqNoOptional : HttpReq :=
  { query := [("userId", ["u1"])], contentType := "",
    bodyRead := .ok (some [("bucketName", .jstr "docs")]),
    multipart := none, formFile := .ok () }

/-- A request with no userId query parameter at all. -/
def noUserReq : HttpReq :=
  { query := [], contentType := "", bodyRead := .ok (some []),
    multipart := none, formFile := .ok () }

/-- Same request but with `userId=` present and empty. -/
def emptyUserReq : HttpReq := { noUserReq with query := [("userId", [""])] }

/-- Same request but with `userId=u1`. -/
def goodUserReq : HttpReq := { noUserReq with query := [("userId", ["u1"])] }

/-- A get-object request: `{"bucketName":"docs","objectName":"a.txt"}`. -/
def getObjReq : HttpReq :=
  { query := [("userId", ["u1"])], contentType := "text/plain",
    bodyRead := .ok (some [("bucketName", .jstr "docs"), ("objectName", .jstr "a.txt")]),
    multipart := none, formFile := .ok () }

/-- An ACL request body missing `bucketName`. -/
def aclMissingReq : HttpReq :=
  { query := [], contentType := "",
    bodyRead := .ok (some [("objectName", .jstr "o")]),
    multipart := none, formFile := .ok () }

/-- An ACL request body with bucketName and objectName. -/
def aclReq1 : HttpReq :=
  { query := [], contentType := "",
    bodyRead := .ok (some [("bucketName", .jstr "docs"), ("objectName", .jstr "o")]),
    multipart := none, formFile := .ok () }

/-- The same ACL request with an extra, unrelated body field. -/
def aclReq2 : HttpReq :=
  { aclReq1 with
    bodyRead := .ok (some [("bucketName", .jstr "docs"), ("objectName", .jstr "o"),
                           ("acl", .jstr "public-read")]) }

/-- A request whose body stream fails to read. -/
def readFailReq : HttpReq :=
  { query := [("userId", ["u1"])], contentType := "", bodyRead := .error (),
    multipart := none, formFile := .ok () }

/-- A request whose body reads fine but is malformed JSON, so the
discarded Unmarshal error leaves the request map nil. -/
def malformedReq : HttpReq :=
  { query := [("userId", ["u1"])], contentType := "", bodyRead := .ok none,
    multipart := none, formFile := .ok () }

/-- When the auth service rejects every user, `getS3Client` never
produces a client: it panics (absent userId) or returns an error. -/
lemma getS3Client_of_auth_error (env : Env) (r : HttpReq)
    (hauth : ∀ u, env.adminGetCaps u = .error ()) :
    getS3Client env r = .panicked ∨ getS3Client env r = .ok (.error ()) := by
  unfold getS3Client getS3Keys
  cases h : (alook r.query "userId").getD [] with
  | nil => left; rfl
  | cons u t =>
    by_cases hu : u = ""
    · right; simp [hu]
    · right; simp [hu, hauth u]

lemma bucketList_calls_nil (env : Env) (r : HttpReq)
    (hcli : getS3Client env r = .panicked ∨ getS3Client env r = .ok (.error ())) :
    (getBucketListHandler env r).1 = [] := by
  rcases hcli with h | h <;> simp [getBucketListHandler, h]

lemma createBucket_calls_nil (env : Env) (r : HttpReq)
    (hcli : getS3Client env r = .panicked ∨ getS3Client env r = .ok (.error ())) :
    (createBucketHandler env r).1 = [] := by
  cases hb : r.bodyRead with
  | error e => simp [createBucketHandler, hb]
  | ok m =>
    cases ha : assertString (alook (m.getD []) "bucketName") with
    | panicked => simp [createBucketHandler, hb, ha]
    | ok b => rcases hcli with h | h <;> simp [createBucketHandler, hb, ha, h]

lemma deleteBucket_calls_nil (env : Env) (r : HttpReq)
    (hcli : getS3Client env r = .panicked ∨ getS3Client env r = .ok (.error ())) :
    (deleteBucketHandler env r).1 = [] := by
  cases hb : r.bodyRead with
  | error e => simp [deleteBucketHandler, hb]
  | ok m =>
    cases ha : assertString (alook (m.getD []) "bucketName") with
    | panicked => simp [deleteBucketHandler, hb, ha]
    | ok b => rcases hcli with h | h <;> simp [deleteBucketHandler, hb, ha, h]

lemma putObject_calls_nil (env : Env) (r : HttpReq)
    (hcli : getS3Client env r = .panicked ∨ getS3Client env r = .ok (.error ())) :
    (putObjectHandler env r).1 = [] := by
  cases hm : r.multipart with
  | none => simp [putObjectHandler, hm]
  | some vals =>
    cases hb : (alook vals "bucketName").getD [] with
    | nil => simp [putObjectHandler, hm, hb]
    | cons b bt =>
      cases ho : (alook vals "objectName").getD [] with
      | nil => simp [putObjectHandler, hm, hb, ho]
      | cons o ot =>
        cases hf : r.formFile with
        | error e => simp [putObjectHandler, hm, hb, ho, hf]
        | ok u => rcases hcli with h | h <;> simp [putObjectHandler, hm, hb, ho, hf, h]

lemma getObject_calls_nil (env : Env) (r : HttpReq)
    (hcli : getS3Client env r = .panicked ∨ getS3Client env r = .ok (.error ())) :
    (getObjectHandler env r).1 = [] := by
  cases hb : r.bodyRead with
  | error e => simp [getObjectHandler, hb]
  | ok m =>
    cases ha : assertString (alook (m.getD []) "bucketName") with
    | panicked => simp [getObjectHandler, hb, ha]
    | ok b =>
      cases ho : assertString (alook (m.getD []) "objectName") with
      | panicked => simp [getObjectHandler, hb, ha, ho]
      | ok o => rcases hcli with h | h <;> simp [getObjectHandler, hb, ha, ho, h]

lemma deleteObject_calls_nil (env : Env) (r : HttpReq)
    (hcli : getS3Client env r = .panicked ∨ getS3Client env r = .ok (.error ())) :
    (deleteObjectHandler env r).1 = [] := by
  cases hb : r.bodyRead with
  | error e => simp [deleteObjectHandler, hb]
  | ok m =>
    cases ha : assertString (alook (m.getD []) "bucketName") with
    | panicked => simp [deleteObjectHandler, hb, ha]
    | ok b =>
      cases ho : assertString (alook (m.getD []) "objectName") with
      | panicked => simp [deleteObjectHandler, hb, ha, ho]
      | ok o => rcases hcli with h | h <;> simp [deleteObjectHandler, hb, ha, ho, h]

lemma objectList_calls_nil (env : Env) (r : HttpReq)
    (hcli : getS3Client env r = .panicked ∨ getS3Client env r = .ok (.error ())) :
    (getObjectListHandler env r).1 = [] := by
  cases hb : r.bodyRead with
  | error e => simp [getObjectListHandler, hb]
  | ok m =>
    cases h1 : assertString (alook (m.getD []) "prefix") with
    | panicked => simp [getObjectListHandler, hb, h1]
    | ok v1 =>
      cases h2 : assertString (alook (m.getD []) "maxKeys") with
      | panicked => simp [getObjectListHandler, hb, h1, h2]
      | ok v2 =>
        cases h3 : assertString (alook (m.getD []) "startAfter") with
        | panicked => simp [getObjectListHandler, hb, h1, h2, h3]
        | ok v3 =>
          cases h4 : assertString (alook (m.getD []) "bucketName") with
          | panicked => simp [getObjectListHandler, hb, h1, h2, h3, h4]
          | ok v4 =>
            rcases hcli with h | h <;> simp [getObjectListHandler, hb, h1, h2, h3, h4, h]

/-- `prepareHandler` errors as soon as one required arg is absent from
the decoded body (before any session is built). -/
lemma prepareHandler_missing (env : Env) (r : HttpReq) (q : JObj) (args : List String)
    (hbody : r.bodyRead = .ok (some q))
    (h : ∃ a ∈ args, alook q a = none) :
    prepareHandler env r args = .error () := by
  obtain ⟨a, ha, hn⟩ := h
  have hall : (args.all fun x => (alook q x).isSome) = false := by
    rw [List.all_eq_false]
    exact ⟨a, ha, by simp [hn]⟩
  simp [prepareHandler, hbody, hall]

/-- C1 (amended): for every delete-bucket request that reaches the store,
the handler issues the delete and then the bucket-not-exists confirmation
poll; if the delete call errors it responds with an error envelope, but
an error returned by the existence poll is ignored (assigned to `err`
and never checked) and the handler still responds with a success
envelope. -/
theorem c1_delete_bucket_poll_error_swallowed (env : Env) (r : HttpReq) (q : JObj)
    (b : String)
    (hbody : r.bodyRead = .ok (some q))
    (hb : alook q "bucketName" = some (.jstr b))
    (hcli : getS3Client env r = .ok (.ok ())) :
    (env.deleteBucket b = .error () →
      deleteBucketHandler env r = ([.deleteBucket b], .resp (.errorEnv "Delete bucket failed")))
    ∧ (env.deleteBucket b = .ok () →
      deleteBucketHandler env r
        = ([.deleteBucket b, .waitNotExists b], .resp .successEnv)) := by
  constructor
  · intro h
    simp [deleteBucketHandler, hbody, hb, assertString, hcli, h]
  · intro h
    cases hw : env.waitNotExists b <;>
      simp [deleteBucketHandler, hbody, hb, assertString, hcli, h, hw]

/-- C1 witness: at a concrete request and an all-succeeding store the
amended theorem applies and yields the success envelope after the poll. -/
theorem c1_delete_bucket_poll_error_swallowed_witness :
    okEnv.deleteBucket "docs" = .ok ()
    ∧ deleteBucketHandler okEnv deleteReq
        = ([.deleteBucket "docs", .waitNotExists "docs"], .resp .successEnv) :=
  ⟨rfl,
   (c1_delete_bucket_poll_error_swallowed okEnv deleteReq
      [("bucketName", .jstr "docs")] "docs" rfl rfl rfl).2 rfl⟩

/-- C1 counterexample: the existence poll errors, yet the handler
responds with a success envelope, not an error envelope — refuting the
claim that an error from the existence poll yields an error response. -/
theorem c1_delete_bucket_claim_counterexample :
    pollFailEnv.waitNotExists "docs" = .error ()
    ∧ deleteBucketHandler pollFailEnv deleteReq
        = ([.deleteBucket "docs", .waitNotExists "docs"], .resp .successEnv) :=
  ⟨rfl, rfl⟩

/-- C2: on a list-objects request whose maxKeys field is `"abc"`
(non-empty, unparsable), `strconv.ParseInt` fails and its zero return
value OVERWRITES the precomputed default, so the MaxKeys passed to
ListObjectsV2 is 0 — not the default constant (which parses to 1000) —
while the request still succeeds with a data envelope. -/
theorem c2_maxkeys_parse_failure_passes_zero :
    (goParseInt64 "abc").2 = false
    ∧ (goParseInt64 S3ListObjectsMaxKeys).1 = 1000
    ∧ (getObjectListHandler okEnv listReqBadMaxKeys).1
        = [.listObjectsV2 { bucket := "docs", pfx := none, startAfter := none, maxKeys := 0 }]
    ∧ (getObjectListHandler okEnv listReqBadMaxKeys).2
        = .resp (.dataEnv (.objectList
            { keyCount := 0, startAfter := "", isTruncated := false,
              objects := [], directories := [] })) :=
  ⟨rfl, rfl, rfl, rfl⟩

/-- C3: whenever the HeadObject metadata probe errors, the get-object
handler returns silently — no response body, no error envelope — and the
GetObject call is never issued (the probe is the only store call). -/
theorem c3_probe_failure_silent_abort (env : Env) (r : HttpReq) (q : JObj)
    (b o : String)
    (hbody : r.bodyRead = .ok (some q))
    (hb : alook q "bucketName" = some (.jstr b))
    (ho : alook q "objectName" = some (.jstr o))
    (hcli : getS3Client env r = .ok (.ok ()))
    (hhead : env.headObject b o = .error ()) :
    getObjectHandler env r = ([.headObject b o], .resp .silent) := by
  simp [getObjectHandler, hbody, hb, ho, assertString, hcli, hhead]

/-- C3 witness: concrete request against a store whose probe fails. -/
theorem c3_probe_failure_silent_abort_witness :
    headFailEnv.headObject "docs" "a.txt" = .error ()
    ∧ getObjectHandler headFailEnv getObjReq
        = ([.headObject "docs" "a.txt"], .resp .silent) :=
  ⟨rfl,
   c3_probe_failure_silent_abort headFailEnv getObjReq
     [("bucketName", .jstr "docs"), ("objectName", .jstr "a.txt")]
     "docs" "a.txt" rfl rfl rfl rfl rfl⟩

/-- C4: with the userId query parameter entirely absent, `getS3Keys`
panics (indexing the nil slice `params["userId"][0]`) instead of
returning an error; the error return only happens when the parameter is
present and empty, and keys are returned only for a present non-empty
identifier whose auth lookup succeeds. -/
theorem c4_missing_userid_panics_not_errors :
    getS3Keys okEnv noUserReq = .panicked
    ∧ getS3Keys okEnv emptyUserReq = .ok (.error ())
    ∧ getS3Keys okEnv goodUserReq = .ok (.ok ("ak", "sk")) :=
  ⟨rfl, rfl, rfl⟩

/-- C5: a list-objects body that contains bucketName but omits the
optional fields makes the handler panic on the unchecked
`req["prefix"].(string)` type assertion — it does not complete and never
reaches the store. -/
theorem c5_omitted_optional_fields_panic :
    alook [("bucketName", JVal.jstr "docs")] "bucketName" = some (.jstr "docs")
    ∧ getObjectListHandler okEnv listReqNoOptional = ([], .panicked) :=
  ⟨rfl, rfl⟩

/-- C6: in every ACL and folder handler, a body lacking one of the
handler's required fields yields the handler's error envelope and no
store call is issued. -/
theorem c6_missing_field_param_error_no_store_call (env : Env) (r : HttpReq) (q : JObj)
    (hbody : r.bodyRead = .ok (some q)) :
    ((alook q "bucketName" = none ∨ alook q "folderName" = none
        ∨ alook q "parentName" = none) →
      createFolderHandler env r = ([], .resp (.errorEnv "create folder failed!!!")))
    ∧ (alook q "bucketName" = none →
      getBucketAclHandler env r = ([], .resp (.errorEnv "get bucket acl failed!!!")))
    ∧ (alook q "bucketName" = none →
      setBucketAclHandler env r = ([], .resp (.errorEnv "set bucket acl failed!!!")))
    ∧ ((alook q "bucketName" = none ∨ alook q "objectName" = none) →
      getObjectAclHandler env r = ([], .resp (.errorEnv "get object acl failed!!!")))
    ∧ ((alook q "bucketName" = none ∨ alook q "objectName" = none) →
      setObjectAclHandler env r = ([], .resp (.errorEnv "set object acl failed!!!"))) := by
  refine ⟨?_, ?_, ?_, ?_, ?_⟩
  · intro hn
    have hp : prepareHandler env r ["bucketName", "folderName", "parentName"] = .error () := by
      rcases hn with hn | hn | hn
      · exact prepareHandler_missing env r q _ hbody ⟨"bucketName", by simp, hn⟩
      · exact prepareHandler_missing env r q _ hbody ⟨"folderName", by simp, hn⟩
      · exact prepareHandler_missing env r q _ hbody ⟨"parentName", by simp, hn⟩
    simp [createFolderHandler, hp]
  · intro hn
    have hp : prepareHandler env r ["bucketName"] = .error () :=
      prepareHandler_missing env r q _ hbody ⟨"bucketName", by simp, hn⟩
    simp [getBucketAclHandler, hp]
  · intro hn
    have hp : prepareHandler env r ["bucketName"] = .error () :=
      prepareHandler_missing env r q _ hbody ⟨"bucketName", by simp, hn⟩
    simp [setBucketAclHandler, hp]
  · intro hn
    have hp : prepareHandler env r ["bucketName", "objectName"] = .error () := by
      rcases hn with hn | hn
      · exact prepareHandler_missing env r q _ hbody ⟨"bucketName", by simp, hn⟩
      · exact prepareHandler_missing env r q _ hbody ⟨"objectName", by simp, hn⟩
    simp [getObjectAclHandler, hp]
  · intro hn
    have hp : prepareHandler env r ["bucketName", "objectName"] = .error () := by
      rcases hn with hn | hn
      · exact prepareHandler_missing env r q _ hbody ⟨"bucketName", by simp, hn⟩
      · exact prepareHandler_missing env r q _ hbody ⟨"objectName", by simp, hn⟩
    simp [setObjectAclHandler, hp]

/-- C6 witness: a get-bucket-ACL body without bucketName yields the
error envelope and an empty store-call trace. -/
theorem c6_missing_field_param_error_no_store_call_witness :
    alook [("objectName", JVal.jstr "o")] "bucketName" = none
    ∧ getBucketAclHandler okEnv aclMissingReq
        = ([], .resp (.errorEnv "get bucket acl failed!!!")) :=
  ⟨rfl,
   (c6_missing_field_param_error_no_store_call okEnv aclMissingReq
      [("objectName", .jstr "o")] rfl).2.1 rfl⟩

/-- C7: if the auth-service lookup fails, none of the seven
credential-resolving handlers issues any object-store call. -/
theorem c7_auth_failure_prevents_store_calls (env : Env) (r : HttpReq)
    (hauth : ∀ u, env.adminGetCaps u = .error ()) :
    (getBucketListHandler env r).1 = [] ∧ (createBucketHandler env r).1 = []
    ∧ (deleteBucketHandler env r).1 = [] ∧ (putObjectHandler env r).1 = []
    ∧ (getObjectHandler env r).1 = [] ∧ (deleteObjectHandler env r).1 = []
    ∧ (getObjectListHandler env r).1 = [] := by
  have h := getS3Client_of_auth_error env r hauth
  exact ⟨bucketList_calls_nil env r h, createBucket_calls_nil env r h,
    deleteBucket_calls_nil env r h, putObject_calls_nil env r h,
    getObject_calls_nil env r h, deleteObject_calls_nil env r h,
    objectList_calls_nil env r h⟩

/-- C7 witness: with an always-failing auth service, a concrete
get-object request issues no store call. -/
theorem c7_auth_failure_prevents_store_calls_witness :
    authFailEnv.adminGetCaps "u1" = .error ()
    ∧ (getObjectHandler authFailEnv getObjReq).1 = [] :=
  ⟨rfl, (c7_auth_failure_prevents_store_calls authFailEnv getObjReq fun _ => rfl).2.2.2.2.1⟩

/-- C9: the PutBucketAcl / PutObjectAcl inputs are built from bucketName
(and objectName) alone — no ACL content from the body — so two requests
agreeing on those names but differing in any other body field produce
identical store-call traces. -/
theorem c9_set_acl_calls_determined_by_names (env : Env) (r1 r2 : HttpReq)
    (q1 q2 : JObj) (b o : String)
    (h1 : r1.bodyRead = .ok (some q1)) (h2 : r2.bodyRead = .ok (some q2))
    (hb1 : alook q1 "bucketName" = some (.jstr b))
    (hb2 : alook q2 "bucketName" = some (.jstr b))
    (ho1 : alook q1 "objectName" = some (.jstr o))
    (ho2 : alook q2 "objectName" = some (.jstr o))
    (hs : env.newSessionFixed = .ok ()) :
    (setBucketAclHandler env r1).1 = [.putBucketAcl b]
    ∧ (setBucketAclHandler env r2).1 = (setBucketAclHandler env r1).1
    ∧ (setObjectAclHandler env r1).1 = [.putObjectAcl b o]
    ∧ (setObjectAclHandler env r2).1 = (setObjectAclHandler env r1).1 := by
  have pb1 : prepareHandler env r1 ["bucketName"] = .ok q1 := by
    simp [prepareHandler, h1, hb1, hs]
  have pb2 : prepareHandler env r2 ["bucketName"] = .ok q2 := by
    simp [prepareHandler, h2, hb2, hs]
  have po1 : prepareHandler env r1 ["bucketName", "objectName"] = .ok q1 := by
    simp [prepareHandler, h1, hb1, ho1, hs]
  have po2 : prepareHandler env r2 ["bucketName", "objectName"] = .ok q2 := by
    simp [prepareHandler, h2, hb2, ho2, hs]
  have tb1 : (setBucketAclHandler env r1).1 = [.putBucketAcl b] := by
    cases hres : env.putBucketAcl b <;>
      simp [setBucketAclHandler, pb1, hb1, assertString, hres]
  have tb2 : (setBucketAclHandler env r2).1 = [.putBucketAcl b] := by
    cases hres : env.putBucketAcl b <;>
      simp [setBucketAclHandler, pb2, hb2, assertString, hres]
  have to1 : (setObjectAclHandler env r1).1 = [.putObjectAcl b o] := by
    cases hres : env.putObjectAcl b o <;>
      simp [setObjectAclHandler, po1, hb1, ho1, assertString, hres]
  have to2 : (setObjectAclHandler env r2).1 = [.putObjectAcl b o] := by
    cases hres : env.putObjectAcl b o <;>
      simp [setObjectAclHandler, po2, hb2, ho2, assertString, hres]
  exact ⟨tb1, by rw [tb1, tb2], to1, by rw [to1, to2]⟩

/-- C9 witness: adding an unrelated "acl" body field leaves the set-ACL
store-call traces unchanged. -/
theorem c9_set_acl_calls_determined_by_names_witness :
    (setBucketAclHandler okEnv aclReq2).1 = (setBucketAclHandler okEnv aclReq1).1
    ∧ (setObjectAclHandler okEnv aclReq2).1 = (setObjectAclHandler okEnv aclReq1).1 :=
  ⟨(c9_set_acl_calls_determined_by_names okEnv aclReq1 aclReq2
      [("bucketName", .jstr "docs"), ("objectName", .jstr "o")]
      [("bucketName", .jstr "docs"), ("objectName", .jstr "o"), ("acl", .jstr "public-read")]
      "docs" "o" rfl rfl rfl rfl rfl rfl rfl).2.1,
   (c9_set_acl_calls_determined_by_names okEnv aclReq1 aclReq2
      [("bucketName", .jstr "docs"), ("objectName", .jstr "o")]
      [("bucketName", .jstr "docs"), ("objectName", .jstr "o"), ("acl", .jstr "public-read")]
      "docs" "o" rfl rfl rfl rfl rfl rfl rfl).2.2.2⟩

/-- C10: in the five JSON-body handlers the parameter-error envelope is
written exactly when reading the body stream fails; a body that reads
but is malformed JSON instead panics on the first unchecked type
assertion (the discarded Unmarshal error leaves the map nil), so the
parameter-error envelope is never emitted for malformed JSON. -/
theorem c10_param_error_envelope_only_on_read_failure (env : Env) (r : HttpReq) :
    (r.bodyRead = .error () →
      createBucketHandler env r = ([], .resp (.errorEnv "Create bucket failed"))
      ∧ deleteBucketHandler env r = ([], .resp (.errorEnv "Get bucket name failed"))
      ∧ getObjectHandler env r = ([], .resp (.errorEnv "Get object parameters failed"))
      ∧ deleteObjectHandler env r
          = ([], .resp (.errorEnv "Get object parameters from request failed"))
      ∧ getObjectListHandler env r
          = ([], .resp (.errorEnv "Get bucket name from request failed")))
    ∧ (r.bodyRead = .ok none →
      createBucketHandler env r = ([], .panicked)
      ∧ deleteBucketHandler env r = ([], .panicked)
      ∧ getObjectHandler env r = ([], .panicked)
      ∧ deleteObjectHandler env r = ([], .panicked)
      ∧ getObjectListHandler env r = ([], .panicked)) := by
  constructor
  · intro h
    refine ⟨?_, ?_, ?_, ?_, ?_⟩ <;>
      simp [createBucketHandler, deleteBucketHandler, getObjectHandler,
        deleteObjectHandler, getObjectListHandler, h]
  · intro h
    refine ⟨?_, ?_, ?_, ?_, ?_⟩ <;>
      simp [createBucketHandler, deleteBucketHandler, getObjectHandler,
        deleteObjectHandler, getObjectListHandler, h, alook, assertString]

/-- C10 witness: a failed body read yields the create-bucket parameter
error envelope; a malformed JSON body makes the same handler panic. -/
theorem c10_param_error_envelope_only_on_read_failure_witness :
    createBucketHandler okEnv readFailReq = ([], .resp (.errorEnv "Create bucket failed"))
    ∧ createBucketHandler okEnv malformedReq = ([], .panicked) :=
  ⟨((c10_param_error_envelope_only_on_read_failure okEnv readFailReq).1 rfl).1,
   ((c10_param_error_envelope_only_on_read_failure okEnv malformedReq).2 rfl).1⟩

/-- C8: on a fully successful get-object request the handler calls
`WriteHeader(200)` BEFORE the three `Header().Set` calls, and net/http
ignores header-map changes made after `WriteHeader`; so the response
streams status 200 and the body bytes with an EMPTY sent-header set —
neither Content-Type, nor Content-Disposition, nor Content-Length is
carried. -/
theorem c8_success_response_carries_no_headers :
    getObjectHandler okEnv getObjReq
      = ([.headObject "docs" "a.txt", .getObject "docs" "a.txt"],
         .resp (.stream 200 [] [97, 98, 99]))
    ∧ okEnv.headObject "docs" "a.txt" = .ok 3 :=
  ⟨rfl, rfl⟩

end Console
